import Mathlib

/-!
Verification of the blockchain-mcp Ethereum JSON-RPC tool server.

The server (src/index.ts, src/utils/type-check.ts) exposes MCP tools that
each issue one JSON-RPC request over HTTP and format the reply as text.
This development shallowly embeds the transport helper `makeEthRpcRequest`,
the response decoding helper `tryDecodeSimpleTypes`, the revert-reason
regex extraction, the hexadecimal validator `checkValidHexadecimal`, and
the relevant tool handlers (get-balance, get-logs, call-contract,
estimate-gas, get-sha3-hash, the filter-creation tools).

Conventions of the embedding:
* JavaScript strings are Lean `String`s, manipulated through their
  character lists (`String.data`); all payloads involved are ASCII.
* JavaScript `BigInt` values are `Nat` (the quantities are unsigned).
* A thrown-and-uncaught JavaScript exception is `Except.error` with a
  `JsError` tag; a handler that returns normally is `Except.ok`.
* `null`/`undefined` are `Option.none`; the JS `x || d` default on strings
  treats exactly `null`/`undefined`/`""` as falsy.
* Floating point display formatting (`toLocaleString` of ETH / Gwei
  values) is outside the decoded-integer outcomes modelled here; success
  outcomes carry the exact decoded integer instead.
-/

namespace EthMcp

/-- A character matched by the regex class `[0-9a-fA-F]`. -/
def isHexDigitChar (c : Char) : Bool :=
  decide ('0' ≤ c ∧ c ≤ '9') || decide ('a' ≤ c ∧ c ≤ 'f') || decide ('A' ≤ c ∧ c ≤ 'F')

/-- A character matched by the regex class `[0-9]`. -/
def isDecDigitChar (c : Char) : Bool :=
  decide ('0' ≤ c ∧ c ≤ '9')

/-- Numeric value of one hexadecimal digit. -/
def hexDigitVal (c : Char) : Nat :=
  if '0' ≤ c ∧ c ≤ '9' then c.toNat - '0'.toNat
  else if 'a' ≤ c ∧ c ≤ 'f' then c.toNat - 'a'.toNat + 10
  else if 'A' ≤ c ∧ c ≤ 'F' then c.toNat - 'A'.toNat + 10
  else 0

/-- Value of a big-endian hexadecimal digit string. -/
def hexValue (l : List Char) : Nat :=
  l.foldl (fun acc c => 16 * acc + hexDigitVal c) 0

/-- Value of a big-endian decimal digit string. -/
def decValue (l : List Char) : Nat :=
  l.foldl (fun acc c => 10 * acc + (c.toNat - '0'.toNat)) 0

/-- Model of the JavaScript `BigInt(string)` conversion on the string
forms this server feeds it: the empty string converts to `0`, a
`0x`/`0X`-prefixed string requires at least one hexadecimal digit after
the prefix (so `BigInt("0x")` throws, modelled as `none`), and otherwise
the string must consist of decimal digits. `none` models a thrown
`SyntaxError`. -/
def jsBigInt (s : String) : Option Nat :=
  match s.data with
  | [] => some 0
  | c₁ :: c₂ :: rest =>
    if c₁ == '0' && (c₂ == 'x' || c₂ == 'X') then
      if rest.isEmpty then none
      else if rest.all isHexDigitChar then some (hexValue rest) else none
    else if (c₁ :: c₂ :: rest).all isDecDigitChar then some (decValue (c₁ :: c₂ :: rest))
    else none
  | l => if l.all isDecDigitChar then some (decValue l) else none

/-- Model of the JS string default `v || d`: `undefined`, `null` and the
empty string are the falsy string values. -/
def jsOrString (v : Option String) (d : String) : String :=
  match v with
  | none => d
  | some s => if s == "" then d else s

/-- The `error` object of a JSON-RPC error reply; only its `message`
field is read by the handlers. -/
structure RpcErrorObj where
  message? : Option String
deriving DecidableEq

/-- A parsed JSON-RPC reply body `{ result?, error? }`, as the handlers
type it. `α` is the per-method result payload type. -/
structure RpcReply (α : Type) where
  result? : Option α
  error? : Option RpcErrorObj
deriving DecidableEq

/-- The HTTP exchange underneath one `makeEthRpcRequest` call: either the
fetch itself failed, or a response with a status arrived whose body
parsed to a reply (`some`) or failed to parse as JSON (`none`). -/
inductive HttpResp (α : Type) where
  | networkFailure
  | resp (status : Nat) (body : Option (RpcReply α))
deriving DecidableEq

/-- Kinds of uncaught JavaScript exceptions a handler can raise. -/
inductive JsError where
  | typeError
  | syntaxError
deriving DecidableEq

/-- Embedding of `makeEthRpcRequest` (src/index.ts lines 12-39): a
non-2xx status makes it throw (`response.ok` is status 200-299), a body
that fails to parse as JSON makes `response.json()` throw, and every
throw is caught and turned into `null`. -/
def makeEthRpcRequestResult {α : Type} : HttpResp α → Option (RpcReply α)
  | .networkFailure => none
  | .resp status body => if 200 ≤ status ∧ status ≤ 299 then body else none

/-- Embedding of the error-message expression
`rpcResult?.error?.message || "Unknown error"` shared by all handlers. -/
def errMsgOf {α : Type} : Option (RpcReply α) → String
  | none => "Unknown error"
  | some r =>
    match r.error? with
    | none => "Unknown error"
    | some e =>
      match e.message? with
      | none => "Unknown error"
      | some m => if m == "" then "Unknown error" else m

/-- Outcome of the get-balance handler up to display formatting: either
the error-branch text, or success carrying the decoded wei integer. -/
inductive BalanceOut where
  | failText (text : String)
  | success (wei : Nat)
deriving DecidableEq

/-- The quantity-decoding step of the get-balance handler
(src/index.ts line 103): `BigInt(rpcResult.result || "0x0")`. -/
def decodeBalanceWei (result? : Option String) : Option Nat :=
  jsBigInt (jsOrString result? "0x0")

/-- Embedding of the get-balance handler body (src/index.ts lines
85-113) applied to the reply `makeEthRpcRequest` produced. -/
def getBalanceRespond (reply : Option (RpcReply String)) : Except JsError BalanceOut :=
  match reply with
  | none => .ok (.failText ("Failed to retrieve balance: " ++ "Unknown error"))
  | some r =>
    if r.error?.isSome then .ok (.failText ("Failed to retrieve balance: " ++ errMsgOf (some r)))
    else
      match decodeBalanceWei r.result? with
      | none => .error .syntaxError
      | some wei => .ok (.success wei)

/-- The get-balance handler composed with the transport helper. -/
def getBalanceFromHttp (h : HttpResp String) : Except JsError BalanceOut :=
  getBalanceRespond (makeEthRpcRequestResult h)

/-- One log object as read by the get-logs formatter (only the fields
the template uses). -/
structure LogEntry where
  blockNumber : String
  transactionHash : String
  topics : List String
  data : String
deriving DecidableEq

/-- Text for one log in the get-logs output (src/index.ts lines
1220-1224). -/
def formatLogEntry (idx : Nat) (log : LogEntry) : String :=
  "Log " ++ Nat.repr (idx + 1) ++ ":\nBlock: " ++ log.blockNumber ++
    "\nTxHash: " ++ log.transactionHash ++ "\nTopics: " ++
    String.intercalate ", " log.topics ++ "\nData: " ++ log.data

/-- The empty-result message of get-logs (src/index.ts line 1213). -/
def noLogsText (fromBlock toBlock address : String) : String :=
  "No logs found for address " ++ address ++ " from block " ++ fromBlock ++
    " to " ++ toBlock ++ "."

/-- Embedding of the get-logs handler body (src/index.ts lines
1183-1226). The non-null assertion `rpcResult.result!.length` on a reply
without a `result` field reads `length` of `undefined`, which throws a
`TypeError`. -/
def getLogsRespond (fromBlock toBlock address : String)
    (reply : Option (RpcReply (List LogEntry))) : Except JsError (List String) :=
  match reply with
  | none => .ok ["Failed to fetch logs: " ++ "Unknown error"]
  | some r =>
    if r.error?.isSome then .ok ["Failed to fetch logs: " ++ errMsgOf (some r)]
    else
      match r.result? with
      | none => .error .typeError
      | some logs =>
        if logs.length = 0 then .ok [noLogsText fromBlock toBlock address]
        else .ok (logs.mapIdx formatLogEntry)

/-- The get-logs handler composed with the transport helper. -/
def getLogsFromHttp (fromBlock toBlock address : String)
    (h : HttpResp (List LogEntry)) : Except JsError (List String) :=
  getLogsRespond fromBlock toBlock address (makeEthRpcRequestResult h)

/-- Removal of a leading `0x` as done by
`hexData.startsWith("0x") ? hexData.slice(2) : hexData`. -/
def strip0x (l : List Char) : List Char :=
  match l with
  | c₁ :: c₂ :: rest => if c₁ == '0' && c₂ == 'x' then rest else c₁ :: c₂ :: rest
  | l => l

/-- Embedding of `tryDecodeSimpleTypes` (src/index.ts lines 1017-1049).
The branches in source order: empty payload; the address heuristic
(64 hex characters whose characters 24-47 are all `'0'`, rendering the
last 40 characters); the `Uint256` branch (any remaining 64-character
payload, where `BigInt` throwing on non-hex characters is caught and
yields `null`); and the truncated bytes preview. The source's `Bool`
branch sits after the `Uint256` branch under the same length guard, so
it is never reached. -/
def tryDecodeSimpleTypes (hexData : String) : Option String :=
  let cleanHex := strip0x hexData.data
  if cleanHex.isEmpty then some "0x (empty)"
  else if cleanHex.length == 64 && ((cleanHex.drop 24).take 24).all (· == '0') then
    some ("Address: 0x" ++ String.mk (cleanHex.drop 24))
  else if cleanHex.length == 64 then
    if cleanHex.all isHexDigitChar then some ("Uint256: " ++ Nat.repr (hexValue cleanHex))
    else none
  else some ("Bytes: 0x" ++ String.mk (cleanHex.take 128) ++ "...")

/-- The literal part of the revert-reason regex
`/reverted: (0x[0-9a-fA-F]+)/`. -/
def revertPat : List Char := "reverted: 0x".data

/-- Scan for the first match of the revert-reason regex: at the first
position where the literal `reverted: 0x` is followed by at least one
hexadecimal digit, capture the maximal digit run. Positions where the
literal matches but no digit follows are skipped, as regex backtracking
does. -/
def revertScan : List Char → Option (List Char)
  | [] => none
  | c :: rest =>
    if revertPat.isPrefixOf (c :: rest) then
      if (((c :: rest).drop revertPat.length).takeWhile isHexDigitChar).isEmpty then
        revertScan rest
      else some (((c :: rest).drop revertPat.length).takeWhile isHexDigitChar)
    else revertScan rest

/-- Embedding of
`errorMessage.match(/reverted: (0x[0-9a-fA-F]+)/)?.[1]`: the first
capture group of the first match, if any. -/
def revertMatch (msg : String) : Option String :=
  (revertScan msg.data).map (fun h => String.mk ('0' :: 'x' :: h))

/-- The optional extra output line
`(revertReason ? `...` : "")` appended by call-contract and
estimate-gas. -/
def revertSuffixText (msg : String) : String :=
  match revertMatch msg with
  | some r => "\nRevert reason (hex): " ++ r
  | none => ""

/-- Error text of the call-contract handler (src/index.ts lines
972-988). -/
def callFailedText (msg : String) : String :=
  "Call failed: " ++ msg ++ revertSuffixText msg

/-- Error text of the estimate-gas handler (src/index.ts lines
1112-1128). -/
def estimateGasFailedText (msg : String) : String :=
  "Gas estimation failed: " ++ msg ++ revertSuffixText msg

/-- Outcome of the call-contract handler. -/
inductive CallOut where
  | failText (text : String)
  | noData (text : String)
  | callResult (text : String)
deriving DecidableEq

/-- Embedding of the call-contract handler body (src/index.ts lines
966-1013): error branch with opportunistic revert-reason line, the
falsy-result branch, then the rendered call result with the decode
attempt. -/
def callContractRespond (reply : Option (RpcReply String)) : CallOut :=
  match reply with
  | none => .failText (callFailedText "Unknown error")
  | some r =>
    if r.error?.isSome then .failText (callFailedText (errMsgOf (some r)))
    else
      match r.result? with
      | none => .noData "No data returned from contract call"
      | some res =>
        if res == "" then .noData "No data returned from contract call"
        else
          .callResult ("Call result:\n              Raw hex: " ++ res ++
            "\n              " ++
            (match tryDecodeSimpleTypes res with
             | some d => "Decoded: " ++ d
             | none => ""))

/-- One serialized JSON-RPC request envelope as built by
`makeEthRpcRequest` (`jsonrpc`, `method`, `params`, `id`); the tools
embedded here pass at most string parameters. -/
structure RpcRequest where
  jsonrpc : String
  method : String
  params : List String
  id : Nat
deriving DecidableEq

/-- The request issued by the get-new-block-filter tool (src/index.ts
lines 1292-1297): `makeEthRpcRequest("eth_newBlockFilter", [], 67)`. -/
def newBlockFilterRequest : RpcRequest :=
  ⟨"2.0", "eth_newBlockFilter", [], 67⟩

/-- The request issued by the get-new-pending-tran-filter tool
(src/index.ts lines 1326-1331), transcribed as written: it also passes
`"eth_newBlockFilter"` as the method. -/
def newPendingTranFilterRequest : RpcRequest :=
  ⟨"2.0", "eth_newBlockFilter", [], 67⟩

/-- Embedding of the regex test `/^0x[0-9A-Fa-f]*$/.test(str)`. -/
def matchesHexPattern (str : String) : Bool :=
  match str.data with
  | c₁ :: c₂ :: rest => c₁ == '0' && c₂ == 'x' && rest.all isHexDigitChar
  | _ => false

/-- Embedding of `checkValidHexadecimal` (src/utils/type-check.ts):
the negation of the pattern test. -/
def checkValidHexadecimal (str : String) : Bool :=
  !(matchesHexPattern str)

/-- First stage of the get-sha3-hash handler (src/index.ts lines
1581-1596): rejection text, or the forwarded `web3_sha3` request. -/
inductive Sha3Stage1 where
  | invalidText (text : String)
  | request (r : RpcRequest)
deriving DecidableEq

/-- Validation step of get-sha3-hash: inputs with
`checkValidHexadecimal` true are rejected, all others are forwarded. -/
def getSha3Validate (data : String) : Sha3Stage1 :=
  if checkValidHexadecimal data then
    .invalidText "Invalid hexadecimal input. Ensure the data starts with '0x' and contains only hexadecimal characters."
  else .request ⟨"2.0", "web3_sha3", [data], 1⟩

/-- Substring test on strings, via the infix relation on their
character lists. -/
def containsSub (hay needle : String) : Bool :=
  decide (needle.data <:+: hay.data)

/-- Test whether `s` starts with `p`, on character lists. -/
def strStarts (s p : String) : Bool :=
  p.data.isPrefixOf s.data

/-- The message property the revert-reason regex
`/reverted: (0x[0-9a-fA-F]+)/` tests for: somewhere in the message the
literal `reverted: 0x` is followed by at least one hexadecimal digit. -/
def containsRevertPattern (msg : String) : Prop :=
  ∃ p h q, msg.data = p ++ revertPat ++ h ++ q ∧ h ≠ [] ∧ h.all isHexDigitChar = true

/-! ## Shared lemmas about the revert-reason scan -/

theorem revertScan_sound (l : List Char) :
    ∀ h : List Char, revertScan l = some h →
      ∃ p q, l = p ++ revertPat ++ h ++ q ∧ h ≠ [] ∧ h.all isHexDigitChar = true := by
  induction l with
  | nil => intro h hs; simp [revertScan] at hs
  | cons c rest ih =>
    intro h hs
    rw [revertScan] at hs
    by_cases hpre : revertPat.isPrefixOf (c :: rest) = true
    · rw [if_pos hpre] at hs
      by_cases hemp : (((c :: rest).drop revertPat.length).takeWhile isHexDigitChar).isEmpty = true
      · rw [if_pos hemp] at hs
        obtain ⟨p, q, hd, hne, hall⟩ := ih h hs
        exact ⟨c :: p, q, by simp [hd], hne, hall⟩
      · rw [if_neg hemp] at hs
        obtain ⟨t, ht⟩ := List.isPrefixOf_iff_prefix.mp hpre
        have hdrop : (c :: rest).drop revertPat.length = t := by
          rw [← ht]; exact List.drop_left revertPat t
        rw [hdrop] at hs hemp
        have hsome : h = t.takeWhile isHexDigitChar := by
          injection hs with h'; exact h'.symm
        refine ⟨[], t.dropWhile isHexDigitChar, ?_, ?_, ?_⟩
        · rw [List.nil_append, ← ht, hsome, List.append_assoc,
            List.takeWhile_append_dropWhile]
        · intro hnil
          rw [hsome] at hnil
          simp [hnil] at hemp
        · rw [hsome]; exact List.all_takeWhile ..
    · rw [if_neg hpre] at hs
      obtain ⟨p, q, hd, hne, hall⟩ := ih h hs
      exact ⟨c :: p, q, by simp [hd], hne, hall⟩

theorem revertScan_complete (p : List Char) :
    ∀ h q : List Char, h ≠ [] → h.all isHexDigitChar = true →
      ∃ h', revertScan (p ++ revertPat ++ h ++ q) = some h' := by
  induction p with
  | nil =>
    intro h q hne hall
    cases h with
    | nil => exact absurd rfl hne
    | cons hh ht =>
      have hhd : isHexDigitChar hh = true := by
        rw [List.all_cons, Bool.and_eq_true] at hall; exact hall.1
      show ∃ h', revertScan ('r' :: ("everted: 0x".data ++ (hh :: (ht ++ q)))) = some h'
      have hpre : revertPat.isPrefixOf ('r' :: ("everted: 0x".data ++ (hh :: (ht ++ q)))) = true :=
        List.isPrefixOf_iff_prefix.mpr ⟨hh :: (ht ++ q), rfl⟩
      have hdrop : ('r' :: ("everted: 0x".data ++ (hh :: (ht ++ q)))).drop revertPat.length
          = hh :: (ht ++ q) := List.drop_left revertPat (hh :: (ht ++ q))
      have htk : (hh :: (ht ++ q)).takeWhile isHexDigitChar
          = hh :: (ht ++ q).takeWhile isHexDigitChar := by
        simp [List.takeWhile_cons, hhd]
      refine ⟨hh :: List.takeWhile isHexDigitChar (ht ++ q), ?_⟩
      simp only [revertScan]
      rw [if_pos hpre]
      simp only [hdrop, htk, List.isEmpty_cons]
      rw [if_neg Bool.false_ne_true]
  | cons c p' ih =>
    intro h q hne hall
    show ∃ h', revertScan (c :: (p' ++ revertPat ++ h ++ q)) = some h'
    by_cases hpre : revertPat.isPrefixOf (c :: (p' ++ revertPat ++ h ++ q)) = true
    · by_cases hemp : (((c :: (p' ++ revertPat ++ h ++ q)).drop
          revertPat.length).takeWhile isHexDigitChar).isEmpty = true
      · obtain ⟨h', hh'⟩ := ih h q hne hall
        refine ⟨h', ?_⟩
        simp only [revertScan]
        rw [if_pos hpre, if_pos hemp]
        exact hh'
      · refine ⟨((c :: (p' ++ revertPat ++ h ++ q)).drop revertPat.length).takeWhile
          isHexDigitChar, ?_⟩
        simp only [revertScan]
        rw [if_pos hpre, if_neg hemp]
    · obtain ⟨h', hh'⟩ := ih h q hne hall
      refine ⟨h', ?_⟩
      simp only [revertScan]
      rw [if_neg hpre]
      exact hh'

/-! ## Claim theorems -/

/-- C1: the claim states that a 64-hex-character word is decoded as an
address exactly when its FIRST 24 hex characters are zero. The code
instead tests `addressPart.slice(0, 24)`, i.e. characters 24-47 of the
stripped payload. Evaluated at two inputs: a word whose upper 12 bytes
are `0xff00...` but whose characters 24-47 are zero IS rendered as an
address (of all zeros), and a genuine address word
`0x000...0111...1` (24 zero characters followed by 40 one characters)
is NOT rendered as an address but as a `Uint256`. -/
theorem c1_address_check_wrong_slice :
    tryDecodeSimpleTypes (String.mk ('0' :: 'x' :: 'f' :: 'f' :: List.replicate 62 '0'))
      = some ("Address: 0x" ++ String.mk (List.replicate 40 '0'))
  ∧ tryDecodeSimpleTypes
        (String.mk ('0' :: 'x' :: (List.replicate 24 '0' ++ List.replicate 40 '1')))
      = some ("Uint256: " ++ Nat.repr 0x1111111111111111111111111111111111111111) :=
  ⟨rfl, rfl⟩

/-- C2 (counterexample): the claim states that every 64-hex word not
decoded as an address is boolean-decoded, the value-1 word giving
"true" and every other value the string "false". In fact the word of
value 2^64 (not address-decoded, value not 1) decodes as a `Uint256`
string with no "false" in it, and the word of value 1 is caught by the
address branch, producing no "true". -/
theorem c2_counterexample_no_bool_decode :
    tryDecodeSimpleTypes
        (String.mk ('0' :: 'x' :: (List.replicate 47 '0' ++ '1' :: List.replicate 16 '0')))
      = some "Uint256: 18446744073709551616"
  ∧ containsSub "Uint256: 18446744073709551616" "false" = false
  ∧ tryDecodeSimpleTypes (String.mk ('0' :: 'x' :: (List.replicate 63 '0' ++ ['1'])))
      = some "Address: 0x0000000000000000000000000000000000000001"
  ∧ containsSub "Address: 0x0000000000000000000000000000000000000001" "true" = false :=
  ⟨rfl, by decide, rfl, by decide⟩

/-- C2 (amended): the `Uint256` branch sits before the `Bool` branch
under the same length-64 guard and returns unconditionally, so the
boolean decoder is unreachable: every 64-character hex word that is not
caught by the (characters 24-47) address test decodes as
`Uint256: <decimal>`. -/
theorem c2_amended_uint_branch (l : List Char) (h64 : l.length = 64)
    (hmid : ((l.drop 24).take 24).all (· == '0') = false)
    (hhex : l.all isHexDigitChar = true) :
    tryDecodeSimpleTypes (String.mk ('0' :: 'x' :: l))
      = some ("Uint256: " ++ Nat.repr (hexValue l)) := by
  have hlemp : ¬ (l.isEmpty = true) := by
    cases l with
    | nil => simp at h64
    | cons a t => simp
  have hlen : (l.length == 64) = true := by simp [h64]
  show (if l.isEmpty = true then some "0x (empty)"
    else if (l.length == 64 && ((l.drop 24).take 24).all (· == '0')) = true then
      some ("Address: 0x" ++ String.mk (l.drop 24))
    else if (l.length == 64) = true then
      if l.all isHexDigitChar = true then some ("Uint256: " ++ Nat.repr (hexValue l)) else none
    else some ("Bytes: 0x" ++ String.mk (l.take 128) ++ "..."))
    = some ("Uint256: " ++ Nat.repr (hexValue l))
  rw [if_neg hlemp, if_neg (by simp [hmid]), if_pos hlen, if_pos hhex]

/-- C2 (witness): the amended theorem applied to the 64-character word
of value 2^64. -/
theorem c2_amended_uint_branch_witness :
    ((List.replicate 47 '0' ++ '1' :: List.replicate 16 '0' : List Char).length = 64
      ∧ (((List.replicate 47 '0' ++ '1' :: List.replicate 16 '0' : List Char).drop 24).take
          24).all (· == '0') = false
      ∧ (List.replicate 47 '0' ++ '1' :: List.replicate 16 '0' : List Char).all
          isHexDigitChar = true)
  ∧ tryDecodeSimpleTypes
        (String.mk ('0' :: 'x' :: (List.replicate 47 '0' ++ '1' :: List.replicate 16 '0')))
      = some ("Uint256: " ++
          Nat.repr (hexValue (List.replicate 47 '0' ++ '1' :: List.replicate 16 '0'))) :=
  ⟨⟨by decide, by decide, by decide⟩,
    c2_amended_uint_branch _ (by decide) (by decide) (by decide)⟩

/-- C3: the claim states the get-new-pending-tran-filter tool issues
`eth_newPendingTransactionFilter`, distinct from the new-block filter
tool. The transcription of the handler shows it sends
`eth_newBlockFilter`, identical to the new-block filter tool's method
and not the pending-transaction method. -/
theorem c3_pending_filter_method_is_block_filter :
    newPendingTranFilterRequest.method = "eth_newBlockFilter"
  ∧ newPendingTranFilterRequest.method = newBlockFilterRequest.method
  ∧ (newPendingTranFilterRequest.method == "eth_newPendingTransactionFilter") = false :=
  ⟨rfl, rfl, by decide⟩

/-- C4 (counterexample): the claim states that for a non-2xx HTTP
response the tool text includes the HTTP status. For status 500 the
get-balance tool text is the fixed string
"Failed to retrieve balance: Unknown error", which does not contain
"500". -/
theorem c4_counterexample_http_500_text :
    getBalanceFromHttp (HttpResp.resp 500 none)
      = Except.ok (BalanceOut.failText "Failed to retrieve balance: Unknown error")
  ∧ containsSub "Failed to retrieve balance: Unknown error" "500" = false :=
  ⟨rfl, by decide⟩

/-- C4 (amended): `makeEthRpcRequest` catches the non-2xx throw and
returns null, so for every non-2xx status (whatever the body) the
get-balance tool text is the fixed "Unknown error" message; the HTTP
status never reaches the tool result (it is only logged to the error
stream). -/
theorem c4_amended_non2xx_unknown_error (status : Nat) (body : Option (RpcReply String))
    (h : ¬ (200 ≤ status ∧ status ≤ 299)) :
    getBalanceFromHttp (HttpResp.resp status body)
      = Except.ok (BalanceOut.failText "Failed to retrieve balance: Unknown error") := by
  show getBalanceRespond (if 200 ≤ status ∧ status ≤ 299 then body else none)
    = Except.ok (BalanceOut.failText "Failed to retrieve balance: Unknown error")
  rw [if_neg h]
  rfl

/-- C4 (witness): the amended theorem applied to an HTTP 500 response
whose body even carried a parseable error message. -/
theorem c4_amended_witness :
    (¬ (200 ≤ 500 ∧ 500 ≤ 299))
  ∧ getBalanceFromHttp (HttpResp.resp 500 (some ⟨none, some ⟨some "boom"⟩⟩))
      = Except.ok (BalanceOut.failText "Failed to retrieve balance: Unknown error") :=
  ⟨by decide, c4_amended_non2xx_unknown_error 500 (some ⟨none, some ⟨some "boom"⟩⟩) (by decide)⟩

/-- C5 (counterexample): the claim states a parsed HTTP 200 reply with
neither `result` nor `error` is reported as transport-error text and
that no handler throws on it. The get-logs handler, receiving such a
reply, reads `.length` of `undefined` and throws a TypeError. -/
theorem c5_counterexample_neither_field_throws :
    getLogsFromHttp "0x100000" "latest" "0x1234567890123456789012345678901234567890"
      (HttpResp.resp 200 (some ⟨none, none⟩))
      = Except.error JsError.typeError := rfl

/-- C5 (amended): a parsed HTTP 200 reply with neither `result` nor
`error` passes the error check as if successful, and the get-logs
handler then throws a TypeError via `rpcResult.result!.length`; it is
not reported as transport-error text, for any query arguments. -/
theorem c5_amended_getlogs_type_error (fromBlock toBlock address : String) :
    getLogsFromHttp fromBlock toBlock address (HttpResp.resp 200 (some ⟨none, none⟩))
      = Except.error JsError.typeError := rfl

/-- C6 (counterexample): the claim states the zero-length hex value
"0x" decodes to 0 without error; in fact `BigInt("0x")` throws a
SyntaxError, which nothing in the handler catches. -/
theorem c6_counterexample_0x_throws :
    decodeBalanceWei (some "0x") = none
  ∧ getBalanceRespond (some ⟨some "0x", none⟩) = Except.error JsError.syntaxError :=
  ⟨rfl, rfl⟩

/-- C6 (amended): a missing result value and the empty string default
to "0x0" and decode to 0; a well-formed nonempty hex quantity decodes
to its value; but the literal string "0x" is truthy, bypasses the
default, and makes `BigInt` throw. -/
theorem c6_amended_quantity_decode (l : List Char) (h₁ : l ≠ [])
    (h₂ : l.all isHexDigitChar = true) :
    decodeBalanceWei none = some 0
  ∧ decodeBalanceWei (some "") = some 0
  ∧ decodeBalanceWei (some "0x") = none
  ∧ decodeBalanceWei (some (String.mk ('0' :: 'x' :: l))) = some (hexValue l) := by
  refine ⟨rfl, rfl, rfl, ?_⟩
  have hlemp : ¬ (l.isEmpty = true) := by
    cases l with
    | nil => exact absurd rfl h₁
    | cons a t => simp
  show (if l.isEmpty = true then none
    else if l.all isHexDigitChar = true then (some (hexValue l) : Option Nat) else none)
    = some (hexValue l)
  rw [if_neg hlemp, if_pos h₂]

/-- C6 (witness): the amended theorem applied to the hex digits
`ff`. -/
theorem c6_amended_quantity_decode_witness :
    ((['f', 'f'] : List Char) ≠ [] ∧ (['f', 'f'] : List Char).all isHexDigitChar = true)
  ∧ (decodeBalanceWei none = some 0
      ∧ decodeBalanceWei (some "") = some 0
      ∧ decodeBalanceWei (some "0x") = none
      ∧ decodeBalanceWei (some (String.mk ('0' :: 'x' :: ['f', 'f'])))
          = some (hexValue ['f', 'f'])) :=
  ⟨⟨by decide, by decide⟩, c6_amended_quantity_decode ['f', 'f'] (by decide) (by decide)⟩

/-- C7: whenever the error message contains a substring matching
`reverted: 0x<hex>`, the call-contract and estimate-gas error outputs
consist of the full message (verbatim, after the fixed prefix) followed
by a separate `Revert reason (hex): 0x<hex>` line carrying a hex run
that occurs after `reverted: 0x` in the message; when no such substring
exists the extra line is omitted and the output is just the prefixed
message. -/
theorem c7_revert_reason_extraction (msg : String) :
    (containsRevertPattern msg →
      ∃ h : List Char, h ≠ [] ∧ h.all isHexDigitChar = true
        ∧ (revertPat ++ h) <:+: msg.data
        ∧ callFailedText msg
            = "Call failed: " ++ msg ++
                ("\nRevert reason (hex): " ++ String.mk ('0' :: 'x' :: h))
        ∧ estimateGasFailedText msg
            = "Gas estimation failed: " ++ msg ++
                ("\nRevert reason (hex): " ++ String.mk ('0' :: 'x' :: h)))
  ∧ (¬ containsRevertPattern msg →
      callFailedText msg = "Call failed: " ++ msg
      ∧ estimateGasFailedText msg = "Gas estimation failed: " ++ msg) := by
  constructor
  · intro hp
    obtain ⟨p, h, q, hdec, hne, hall⟩ := hp
    obtain ⟨h', hscan⟩ := revertScan_complete p h q hne hall
    rw [← hdec] at hscan
    obtain ⟨p₂, q₂, hdec₂, hne₂, hall₂⟩ := revertScan_sound msg.data h' hscan
    refine ⟨h', hne₂, hall₂, ⟨p₂, q₂, ?_⟩, ?_, ?_⟩
    · rw [hdec₂]; simp [List.append_assoc]
    · simp [callFailedText, revertSuffixText, revertMatch, hscan]
    · simp [estimateGasFailedText, revertSuffixText, revertMatch, hscan]
  · intro hn
    cases hscan : revertScan msg.data with
    | some h' =>
      obtain ⟨p₂, q₂, hdec₂, hne₂, hall₂⟩ := revertScan_sound msg.data h' hscan
      exact absurd ⟨p₂, h', q₂, hdec₂, hne₂, hall₂⟩ hn
    | none =>
      constructor
      · simp [callFailedText, revertSuffixText, revertMatch, hscan]
      · simp [estimateGasFailedText, revertSuffixText, revertMatch, hscan]

/-- C7 (witness): the theorem applied to the message
"execution reverted: 0xdeadbeef". -/
theorem c7_revert_reason_extraction_witness :
    containsRevertPattern "execution reverted: 0xdeadbeef"
  ∧ (∃ h : List Char, h ≠ [] ∧ h.all isHexDigitChar = true
      ∧ (revertPat ++ h) <:+: ("execution reverted: 0xdeadbeef" : String).data
      ∧ callFailedText "execution reverted: 0xdeadbeef"
          = "Call failed: " ++ "execution reverted: 0xdeadbeef" ++
              ("\nRevert reason (hex): " ++ String.mk ('0' :: 'x' :: h))
      ∧ estimateGasFailedText "execution reverted: 0xdeadbeef"
          = "Gas estimation failed: " ++ "execution reverted: 0xdeadbeef" ++
              ("\nRevert reason (hex): " ++ String.mk ('0' :: 'x' :: h))) := by
  have hp : containsRevertPattern "execution reverted: 0xdeadbeef" :=
    ⟨"execution ".data, "deadbeef".data, [], by decide, by decide, by decide⟩
  exact ⟨hp, (c7_revert_reason_extraction "execution reverted: 0xdeadbeef").1 hp⟩

/-- C8: a get-logs invocation whose node reply is the empty array
produces exactly one content block, the "no logs found" text, which
contains the queried address, the fromBlock and the toBlock, and which
does not start with the error-path prefix "Failed". -/
theorem c8_empty_logs_message (fromBlock toBlock address : String) :
    getLogsRespond fromBlock toBlock address (some ⟨some [], none⟩)
      = Except.ok [noLogsText fromBlock toBlock address]
  ∧ containsSub (noLogsText fromBlock toBlock address) address = true
  ∧ containsSub (noLogsText fromBlock toBlock address) fromBlock = true
  ∧ containsSub (noLogsText fromBlock toBlock address) toBlock = true
  ∧ strStarts (noLogsText fromBlock toBlock address) "Failed" = false := by
  have hdata : (noLogsText fromBlock toBlock address).data
      = "No logs found for address ".data ++ (address.data ++ (" from block ".data ++
          (fromBlock.data ++ (" to ".data ++ (toBlock.data ++ ".".data))))) := by
    simp [noLogsText, String.data_append]
  refine ⟨rfl, ?_, ?_, ?_, ?_⟩
  · rw [containsSub, decide_eq_true_eq, hdata]
    refine ⟨"No logs found for address ".data,
      " from block ".data ++ (fromBlock.data ++ (" to ".data ++ (toBlock.data ++ ".".data))),
      ?_⟩
    simp [List.append_assoc]
  · rw [containsSub, decide_eq_true_eq, hdata]
    refine ⟨"No logs found for address ".data ++ (address.data ++ " from block ".data),
      " to ".data ++ (toBlock.data ++ ".".data), ?_⟩
    simp [List.append_assoc]
  · rw [containsSub, decide_eq_true_eq, hdata]
    refine ⟨"No logs found for address ".data ++ (address.data ++ (" from block ".data ++
      (fromBlock.data ++ " to ".data))), ".".data, ?_⟩
    simp [List.append_assoc]
  · rw [strStarts, hdata]
    rw [show "No logs found for address ".data
      = 'N' :: "o logs found for address ".data from rfl, List.cons_append]
    rw [show "Failed".data = 'F' :: "ailed".data from rfl]
    simp only [List.isPrefixOf]
    rw [show ('F' == 'N') = false from rfl, Bool.false_and]

/-- C9: a zero-length call payload (the strings "0x" and "", the only
strings whose payload is empty after stripping the 0x prefix) decodes
to the literal marker "0x (empty)", which is not the bytes-preview
form; at the handler level the result "0x" renders this marker in the
decode line. -/
theorem c9_empty_payload_marker :
    tryDecodeSimpleTypes "0x" = some "0x (empty)"
  ∧ tryDecodeSimpleTypes "" = some "0x (empty)"
  ∧ containsSub "0x (empty)" "Bytes" = false
  ∧ callContractRespond (some ⟨some "0x", none⟩)
      = CallOut.callResult
          "Call result:\n              Raw hex: 0x\n              Decoded: 0x (empty)" :=
  ⟨rfl, rfl, by decide, rfl⟩

/-- C10: `checkValidHexadecimal` returns false exactly when its
argument matches `^0x[0-9A-Fa-f]*$` (so it returns true exactly on
NON-matches, the opposite of its name), and consequently the
get-sha3-hash validation accepts the bare string "0x" and forwards it
as a `web3_sha3` request. -/
theorem c10_check_valid_hex_inverted (str : String) :
    (checkValidHexadecimal str = false ↔
      ∃ t, str.data = '0' :: 'x' :: t ∧ t.all isHexDigitChar = true)
  ∧ getSha3Validate "0x" = Sha3Stage1.request ⟨"2.0", "web3_sha3", ["0x"], 1⟩ := by
  constructor
  · constructor
    · intro hfalse
      have hm : matchesHexPattern str = true := by
        unfold checkValidHexadecimal at hfalse
        simpa using hfalse
      unfold matchesHexPattern at hm
      cases hd : str.data with
      | nil => rw [hd] at hm; simp at hm
      | cons c₁ rest₁ =>
        cases rest₁ with
        | nil => rw [hd] at hm; simp at hm
        | cons c₂ rest =>
          rw [hd] at hm
          simp only [Bool.and_eq_true, beq_iff_eq] at hm
          obtain ⟨⟨h0, hx⟩, hall⟩ := hm
          exact ⟨rest, by rw [h0, hx], hall⟩
    · rintro ⟨t, hd, hall⟩
      unfold checkValidHexadecimal matchesHexPattern
      rw [hd]
      simp [hall]
  · rfl

/-- C10 (witness): the equivalence applied to the mixed-case input
"0xAb9". -/
theorem c10_check_valid_hex_inverted_witness :
    checkValidHexadecimal "0xAb9" = false :=
  (c10_check_valid_hex_inverted "0xAb9").1.mpr ⟨['A', 'b', '9'], rfl, by decide⟩

end EthMcp
